import Mathlib

/-!
Shallow embedding of the client-side state-synchronization layer of the
Pokemon-FireRed dashboard: the State Store (`useGameState.ts`), the
Connection Manager (`useWebSocket.ts`), the page-level Command Dispatcher
(`app/page.tsx`) and the screen-poll component (`GameDisplay.tsx`),
together with proofs of the specified properties.
-/

/-! ## Data model (`useGameState.ts`, `PartyStatus.tsx`) -/

/-- `Pokemon` interface from `useGameState.ts`. -/
structure Pokemon where
  nickname : String
  level : Nat
  current_hp : Nat
  max_hp : Nat
  hp_percentage : Int
  is_fainted : Bool
deriving DecidableEq

/-- `Party` interface from `useGameState.ts`. -/
structure Party where
  party_count : Nat
  pokemon : List Pokemon
  total_hp_percentage : Int
deriving DecidableEq

/-- `Position` interface from `useGameState.ts`. -/
structure Position where
  x : Nat
  y : Nat
  map_bank : Nat
  map_number : Nat
deriving DecidableEq

/-- `GameState` interface from `useGameState.ts`. -/
structure GameState where
  party : Party
  position : Position
  badges : Nat
  badge_count : Nat
  money : Nat
  in_battle : Bool
deriving DecidableEq

/-- Agent status union type `'active' | 'idle' | 'busy'`. -/
inductive AgentStatus where
  | active
  | idle
  | busy
deriving DecidableEq

/-- `Agent` interface from `useGameState.ts`. -/
structure Agent where
  name : String
  role : String
  status : AgentStatus
  icon : String
deriving DecidableEq

/-- `LogEntry` interface from `useGameState.ts`. -/
structure LogEntry where
  agent : String
  action : String
  details : String
  timestamp : String
deriving DecidableEq

/-- `Omit<LogEntry, 'timestamp'>`: the argument shape of `addLog`. -/
structure LogEntryIn where
  agent : String
  action : String
  details : String
deriving DecidableEq

/-- The `DEFAULT_AGENTS` roster from `useGameState.ts`. -/
def DEFAULT_AGENTS : List Agent :=
  [ ⟨"Planning Agent", "Strategic Planner", .idle, "🎯"⟩,
    ⟨"Navigation Agent", "Overworld Navigator", .idle, "🚶"⟩,
    ⟨"Battle Agent", "Combat Strategist", .idle, "⚔️"⟩,
    ⟨"Memory Agent", "Memory Manager", .idle, "🧠"⟩,
    ⟨"Critique Agent", "Task Evaluator", .idle, "📊"⟩ ]

/-- The three `useState` slices held by the `useGameState` hook. -/
structure StoreState where
  gameState : Option GameState
  agents : List Agent
  logs : List LogEntry
deriving DecidableEq

/-- Initial hook state: `gameState = null`, `agents = DEFAULT_AGENTS`, `logs = []`. -/
def initStore : StoreState := ⟨none, DEFAULT_AGENTS, []⟩

/-- `updateGameState` from `useGameState.ts`: `setGameState(newState)`, a
wholesale replacement of the snapshot. -/
def updateGameState (st : StoreState) (newState : GameState) : StoreState :=
  { st with gameState := some newState }

/-- `updateAgentStatus` from `useGameState.ts`:
`prev.map(agent => agent.name === agentName ? { ...agent, status } : agent)`. -/
def updateAgentStatus (agents : List Agent) (agentName : String)
    (status : AgentStatus) : List Agent :=
  agents.map fun agent =>
    if agent.name = agentName then { agent with status := status } else agent

/-- `addLog` from `useGameState.ts`:
`setLogs(prev => [...prev.slice(-50), { ...entry, timestamp: now }])`.
`prev.slice(-50)` keeps the last `min 50 prev.length` elements, i.e.
`prev.drop (prev.length - 50)` with truncated subtraction. -/
def addLog (logs : List LogEntry) (entry : LogEntryIn) (now : String) :
    List LogEntry :=
  logs.drop (logs.length - 50) ++ [⟨entry.agent, entry.action, entry.details, now⟩]

/-- `clearLogs` from `useGameState.ts`: `setLogs([])`. -/
def clearLogs (_logs : List LogEntry) : List LogEntry := []

/-! ## Connection Manager (`useWebSocket.ts`) -/

/-- `ConnectionStatus` union type from `useWebSocket.ts`. -/
inductive ConnectionStatus where
  | connecting
  | connected
  | disconnected
  | error
deriving DecidableEq

/-- Browser WebSocket ready states. -/
inductive ReadyState where
  | CONNECTING
  | OPEN
  | CLOSING
  | CLOSED
deriving DecidableEq

/-- A WebSocket object created by `connect`, identified by creation order. -/
structure Socket where
  id : Nat
  readyState : ReadyState
deriving DecidableEq

/-- The state held by the `useWebSocket` hook: the `connectionStatus` state,
the `wsRef` and `reconnectTimeoutRef` refs, plus the environment's view of
every socket created so far and of the timers scheduled and still pending. -/
structure WSState where
  connectionStatus : ConnectionStatus
  wsRef : Option Nat
  reconnectTimeoutRef : Option Nat
  sockets : List Socket
  pendingTimers : List Nat
  nextSocketId : Nat
  nextTimerId : Nat
deriving DecidableEq

/-- Initial hook state: status `disconnected`, both refs `null`. -/
def initWS : WSState := ⟨.disconnected, none, none, [], [], 0, 0⟩

/-- Ready state of socket `i`, if it exists. -/
def socketState (s : WSState) (i : Nat) : Option ReadyState :=
  (s.sockets.find? fun so => so.id = i).map Socket.readyState

/-- Ready state of the socket currently held by `wsRef`, if any. -/
def refReadyState (s : WSState) : Option ReadyState :=
  match s.wsRef with
  | some i => socketState s i
  | none => none

/-- Set the ready state of socket `i`. -/
def setSocketState (sockets : List Socket) (i : Nat) (r : ReadyState) :
    List Socket :=
  sockets.map fun so => if so.id = i then { so with readyState := r } else so

/-- `connect` from `useWebSocket.ts`: the guard is
`if (wsRef.current?.readyState === WebSocket.OPEN) return;`; otherwise
status becomes `connecting` and a fresh `WebSocket` is created and stored
in `wsRef`. -/
def connect (s : WSState) : WSState :=
  if refReadyState s = some .OPEN then s
  else
    { s with
      connectionStatus := .connecting,
      sockets := s.sockets ++ [⟨s.nextSocketId, .CONNECTING⟩],
      wsRef := some s.nextSocketId,
      nextSocketId := s.nextSocketId + 1 }

/-- `disconnect` from `useWebSocket.ts`: `clearTimeout` on the timer held in
`reconnectTimeoutRef` (if any), then `close()` the socket held in `wsRef`
(if any) and null out `wsRef`. `close()` only moves the socket to `CLOSING`;
its `close` event is delivered later by the environment. -/
def disconnect (s : WSState) : WSState :=
  let s1 :=
    match s.reconnectTimeoutRef with
    | some t => { s with pendingTimers := s.pendingTimers.erase t }
    | none => s
  match s1.wsRef with
  | some i =>
      { s1 with sockets := setSocketState s1.sockets i .CLOSING, wsRef := none }
  | none => s1

/-- Events driving the `useWebSocket` hook: the two imperative calls and the
environment-delivered socket events and timer firings. -/
inductive WSEvent where
  | callConnect
  | socketOpen (i : Nat)
  | socketClose (i : Nat)
  | socketError (i : Nat)
  | timerFire (t : Nat)
  | callDisconnect
deriving DecidableEq

/-- One step of the hook. `socketOpen` runs the `ws.onopen` handler,
`socketClose` runs `ws.onclose` (status `disconnected`, then
`reconnectTimeoutRef.current = setTimeout(connect, 3000)` — note it
schedules unconditionally, with no check that the closure was requested),
`socketError` runs `ws.onerror`, and `timerFire` consumes a pending timer
and runs `connect`. -/
def wsStep (s : WSState) (e : WSEvent) : WSState :=
  match e with
  | .callConnect => connect s
  | .socketOpen i =>
      { s with sockets := setSocketState s.sockets i .OPEN,
               connectionStatus := .connected }
  | .socketClose i =>
      { s with sockets := setSocketState s.sockets i .CLOSED,
               connectionStatus := .disconnected,
               pendingTimers := s.pendingTimers ++ [s.nextTimerId],
               reconnectTimeoutRef := some s.nextTimerId,
               nextTimerId := s.nextTimerId + 1 }
  | .socketError _ => { s with connectionStatus := .error }
  | .timerFire t => connect { s with pendingTimers := s.pendingTimers.erase t }
  | .callDisconnect => disconnect s

/-- Whether the environment may deliver event `e` in state `s`: a socket can
open only from `CONNECTING`, close only if it exists and is not already
`CLOSED`, error only if it exists, and a timer can fire only while pending. -/
def wsEventValid (s : WSState) (e : WSEvent) : Bool :=
  match e with
  | .callConnect => true
  | .socketOpen i => socketState s i = some .CONNECTING
  | .socketClose i =>
      match socketState s i with
      | some r => r ≠ .CLOSED
      | none => false
  | .socketError i => (socketState s i).isSome
  | .timerFire t => t ∈ s.pendingTimers
  | .callDisconnect => true

/-- Run a list of events from a state. -/
def wsRun (s : WSState) (es : List WSEvent) : WSState := es.foldl wsStep s

/-- Every event of the trace is deliverable when it occurs. -/
def wsTraceValid (s : WSState) : List WSEvent → Bool
  | [] => true
  | e :: es => wsEventValid s e && wsTraceValid (wsStep s e) es

/-! ## Screen poll (`GameDisplay.tsx`) -/

/-- State of the `GameDisplay` component together with its environment: the
`isRunning` prop, the `screenImage` state, whether the 500 ms interval is
installed, the set of in-flight `GET /api/game/screen` requests, and a
running count of requests issued. -/
structure DisplayState where
  isRunning : Bool
  screenImage : Option String
  intervalActive : Bool
  inFlight : List Nat
  nextReq : Nat
  requestCount : Nat
deriving DecidableEq

/-- Initial component state: not running, no image, no interval. -/
def initDisplay : DisplayState := ⟨false, none, false, [], 0, 0⟩

/-- `fetchScreen` from `GameDisplay.tsx` (request-issuing half): guarded by
`if (!isRunning) return;`, then issues one request; the response is handled
later by `displayStep .responseOk`. -/
def fetchScreen (s : DisplayState) : DisplayState :=
  if !s.isRunning then s
  else
    { s with
      inFlight := s.inFlight ++ [s.nextReq],
      nextReq := s.nextReq + 1,
      requestCount := s.requestCount + 1 }

/-- Events driving `GameDisplay`: the `isRunning` prop changing (which
re-runs the effect), an interval tick, and an OK response to an in-flight
screen request carrying the base64 `image` payload. -/
inductive DisplayEvent where
  | setRunning (b : Bool)
  | intervalTick
  | responseOk (r : Nat) (image : String)
deriving DecidableEq

/-- One step of `GameDisplay`. On a prop change the old interval is cleared
by the effect cleanup; then the effect body either calls `fetchScreen` and
installs the interval (running) or does `setScreenImage(null)` (stopped).
A response to a request still in flight runs
`setScreenImage('data:image/png;base64,' + data.image)` — with no check of
the current `isRunning` value. -/
def displayStep (s : DisplayState) (e : DisplayEvent) : DisplayState :=
  match e with
  | .setRunning b =>
      let s1 := { s with isRunning := b, intervalActive := false }
      if b then fetchScreen { s1 with intervalActive := true }
      else { s1 with screenImage := none }
  | .intervalTick => if s.intervalActive then fetchScreen s else s
  | .responseOk r image =>
      if r ∈ s.inFlight then
        { s with
          inFlight := s.inFlight.erase r,
          screenImage := some ("data:image/png;base64," ++ image) }
      else s

/-- Run a list of display events from a state. -/
def displayRun (s : DisplayState) (es : List DisplayEvent) : DisplayState :=
  es.foldl displayStep s

/-! ## Command Dispatcher (`app/page.tsx`) -/

/-- JavaScript truthiness of an optional string field (`undefined`/`null`
and the empty string are falsy). -/
def jsTruthy (o : Option String) : Bool :=
  match o with
  | some s => s ≠ ""
  | none => false

/-- JavaScript `o || d` for an optional string field. -/
def jsOrElse (o : Option String) (d : String) : String :=
  match o with
  | some s => if s = "" then d else s
  | none => d

/-- Whether an HTTP status makes `response.ok` true (status in 200–299). -/
def respOk (status : Nat) : Bool := 200 ≤ status && status < 300

/-- Response to `POST /api/game/start`: a status code, and the optional
`detail` field of the JSON body. -/
structure StartResponse where
  status : Nat
  detail : Option String
deriving DecidableEq

/-- Response to `POST /api/game/stop`: a status code (never inspected). -/
structure StopResponse where
  status : Nat
deriving DecidableEq

/-- Response body of `POST /api/game/iterate`:
`{game_state?, action_taken?, outcome?}`. -/
structure IterateResponse where
  game_state : Option GameState
  action_taken : Option String
  outcome : Option String
deriving DecidableEq

/-- The page-level state of `app/page.tsx`: the `isRunning` and `error`
`useState` slices plus the `useGameState` store. -/
structure AppState where
  isRunning : Bool
  error : Option String
  store : StoreState
deriving DecidableEq

/-- Initial page state. -/
def initApp : AppState := ⟨false, none, initStore⟩

/-- `handleStart` from `app/page.tsx`, given the backend's response:
`setError(null)`, then on `response.ok` set running and append the started
log entry; otherwise `throw new Error(data.detail || 'Failed to start')`,
caught by the `catch` which stores the message in `error`. -/
def handleStart (resp : StartResponse) (now : String) (st : AppState) :
    AppState :=
  let st1 := { st with error := none }
  if respOk resp.status then
    { st1 with
      isRunning := true,
      store := { st1.store with
        logs := addLog st1.store.logs
          ⟨"System", "started", "AI Pokemon player started"⟩ now } }
  else
    { st1 with error := some (jsOrElse resp.detail "Failed to start") }

/-- `handleStop` from `app/page.tsx`: the fetch outcome is either a response
(of any status — `response.ok` is never checked) or a thrown error message.
On a response: running is set false and the stopped log entry appended; on
a throw: only `error` is set. -/
def handleStop (outcome : Except String StopResponse) (now : String)
    (st : AppState) : AppState :=
  match outcome with
  | .ok _ =>
      { st with
        isRunning := false,
        store := { st.store with
          logs := addLog st.store.logs
            ⟨"System", "stopped", "AI Pokemon player stopped"⟩ now } }
  | .error e => { st with error := some e }

/-- `handleIterate` from `app/page.tsx`, given the backend's (successful)
response. Returns the new page state and the number of network calls made:
`if (!isRunning) return;` makes the stopped case a guarded no-op with zero
calls. Otherwise `if (result.game_state)` folds the snapshot via
`updateGameState`, and `if (result.action_taken)` appends a log entry whose
agent is `'Battle Agent'` exactly for the `'battle'` action and whose
details are `result.outcome || 'Action completed'`. -/
def handleIterate (resp : IterateResponse) (now : String) (st : AppState) :
    AppState × Nat :=
  if !st.isRunning then (st, 0)
  else
    let st1 :=
      match resp.game_state with
      | some gs => { st with store := updateGameState st.store gs }
      | none => st
    let st2 :=
      if jsTruthy resp.action_taken then
        let a := resp.action_taken.getD ""
        { st1 with store := { st1.store with
            logs := addLog st1.store.logs
              ⟨if a = "battle" then "Battle Agent" else "Planning Agent",
               a, jsOrElse resp.outcome "Action completed"⟩ now } }
      else st1
    (st2, 1)

/-! ## Party display (`PartyStatus.tsx`) and the modelled backend producer -/

/-- `getHPClass` from `PartyStatus.tsx`. -/
def getHPClass (percentage : Int) : String :=
  if percentage > 50 then "hp-high"
  else if percentage > 20 then "hp-medium"
  else "hp-low"

/-- The HP-bar width rendered by `PartyStatus.tsx`:
`width: poke.hp_percentage + '%'` — the stored field, displayed verbatim. -/
def hpBarWidth (p : Pokemon) : Int := p.hp_percentage

/-- The fainted marker rendered by `PartyStatus.tsx`:
`poke.is_fainted ? '💀' : '✓'`. -/
def faintedMark (p : Pokemon) : String := if p.is_fainted then "💀" else "✓"

/-- Modelled from the spec: the backend snapshot producer (not among the
visible sources) builds each party member with
`hp_percentage == round(current_hp / max_hp * 100)` and
`is_fainted == (current_hp == 0)`. -/
def mkBackendPokemon (nickname : String) (level current_hp max_hp : Nat) :
    Pokemon :=
  ⟨nickname, level, current_hp, max_hp,
   round ((current_hp * 100 : ℚ) / max_hp), current_hp == 0⟩

/-- A single-member party snapshot around a given party member. -/
def mkSnapshot (p : Pokemon) : GameState :=
  ⟨⟨1, [p], p.hp_percentage⟩, ⟨0, 0, 0, 0⟩, 0, 0, 0, false⟩

/-! ## Concrete scenarios used by the theorems below -/

/-- 51 log entries to insert in order. -/
def c1Entries : List LogEntryIn := List.replicate 51 ⟨"System", "step", "x"⟩

/-- The log after 51 consecutive `addLog` calls starting from the empty log. -/
def c1Run : List LogEntry := c1Entries.foldl (fun l e => addLog l e "t0") []

/-- Connect, open, explicitly disconnect; the close event triggered by the
`close()` call then arrives, and the timer it scheduled fires. -/
def c2Trace : List WSEvent :=
  [.callConnect, .socketOpen 0, .callDisconnect, .socketClose 0, .timerFire 0]

/-- The hook state after `connect()` and the socket's `open` event. -/
def c3OpenState : WSState := wsRun initWS [.callConnect, .socketOpen 0]

/-- Start polling (issues request 0), stop (image reset), a late interval
tick, then the response to the request that was in flight at the stop. -/
def c4Trace : List DisplayEvent :=
  [.setRunning true, .setRunning false, .intervalTick, .responseOk 0 "IMG"]

/-- A concrete game-state snapshot. -/
def sampleGS : GameState :=
  ⟨⟨1, [⟨"BULBA", 5, 19, 19, 100, false⟩], 100⟩, ⟨1, 2, 3, 4⟩, 1, 1, 3000, true⟩

/-- The page state while a session is running. -/
def runningApp : AppState := { initApp with isRunning := true }

/-- A concrete successful iterate response naming a battle action. -/
def sampleIterResp : IterateResponse := ⟨some sampleGS, some "battle", none⟩

/-! ## Theorems -/

set_option maxRecDepth 4000 in
/-- Claim C1: the spec says the exposed log length never exceeds 50, but
`addLog` keeps `prev.slice(-50)` — the last 50 of the *previous* log — and
then appends, so 51 consecutive `addLog` calls leave 51 entries, and the log
stays at 51 entries from then on. -/
theorem c1_log_cap_is_51_not_50 :
    c1Run.length = 51 ∧ ¬ c1Run.length ≤ 50 ∧
    (addLog c1Run ⟨"System", "step", "y"⟩ "t1").length = 51 := by decide

/-- Claim C2: after an explicit `disconnect()` (which does clear the timer
pending at that moment), the `close` event produced by the `close()` call
still runs `ws.onclose`, which schedules a fresh reconnect timer; when it
fires, `connect` runs and creates a new socket — a reconnect attempt fires
after an explicit disconnect, contradicting the claim. The trace is valid:
every event is deliverable when it occurs. -/
theorem c2_reconnect_fires_after_disconnect :
    wsTraceValid initWS c2Trace = true ∧
    (wsRun initWS (c2Trace.take 3)).pendingTimers = [] ∧
    (wsRun initWS (c2Trace.take 4)).pendingTimers = [0] ∧
    (wsRun initWS c2Trace).connectionStatus = .connecting ∧
    (wsRun initWS c2Trace).sockets.length = 2 ∧
    (wsRun initWS c2Trace).wsRef = some 1 := by decide

/-- Claim C3 (counterexample): calling `connect()` while the connection is
still in the `connecting` state (socket created but not yet `OPEN`) is not a
no-op — the guard only checks `readyState === OPEN`, so a second connection
object is created. -/
theorem c3_connect_while_connecting_not_noop :
    (connect initWS).connectionStatus = .connecting ∧
    (connect initWS).sockets.length = 1 ∧
    (connect (connect initWS)).sockets.length = 2 ∧
    connect (connect initWS) ≠ connect initWS := by decide

/-- Claim C3 (amended): a `connect()` call made while the referenced socket
is `OPEN` (the connected state) is a no-op: no new connection object is
created and the hook state is unchanged. -/
theorem c3_connect_when_open_noop (s : WSState)
    (h : refReadyState s = some .OPEN) : connect s = s := by
  unfold connect
  rw [if_pos h]

/-- Witness for the amended Claim C3 at the state reached by `connect()`
followed by the socket's `open` event. -/
theorem c3_connect_when_open_noop_witness :
    refReadyState c3OpenState = some .OPEN ∧ connect c3OpenState = c3OpenState :=
  ⟨by decide, c3_connect_when_open_noop c3OpenState (by decide)⟩

/-- Claim C4: after the running flag flips to false the poll issues no
further requests (the request count stays 1 even across a later interval
tick) and the displayed image is reset — but the response to the request
that was in flight at the flip is *not* discarded: `fetchScreen` re-checks
nothing after its `await`, so the late response restores the display,
contradicting the claim. -/
theorem c4_late_response_resurrects_display :
    (displayRun initDisplay (c4Trace.take 2)).screenImage = none ∧
    (displayRun initDisplay c4Trace).requestCount = 1 ∧
    (displayRun initDisplay c4Trace).screenImage =
      some "data:image/png;base64,IMG" ∧
    (displayRun initDisplay c4Trace).screenImage ≠ none := by decide

/-- Claim C5: when the backend answers `start` with a non-success status,
`handleStart` stores the backend's `detail` message (JS `||`-falling back to
"Failed to start" when none is provided) as the failure, and leaves the
running flag and the whole store unchanged. -/
theorem c5_start_rejected (resp : StartResponse) (now : String) (st : AppState)
    (h : respOk resp.status = false) :
    (handleStart resp now st).error =
      some (jsOrElse resp.detail "Failed to start") ∧
    (handleStart resp now st).isRunning = st.isRunning ∧
    (handleStart resp now st).store = st.store := by
  simp [handleStart, h]

/-- Witness for Claim C5: a `400 {detail: "No ROM loaded"}` response yields
the failure message "No ROM loaded" with the running flag still false. -/
theorem c5_start_rejected_witness :
    respOk 400 = false ∧
    (handleStart ⟨400, some "No ROM loaded"⟩ "t0" initApp).error =
      some "No ROM loaded" ∧
    (handleStart ⟨400, some "No ROM loaded"⟩ "t0" initApp).isRunning = false := by
  have h := c5_start_rejected ⟨400, some "No ROM loaded"⟩ "t0" initApp (by decide)
  exact ⟨by decide, by rw [h.1]; decide, by rw [h.2.1]; rfl⟩

/-- Claim C6: `handleIterate` called while the running flag is false is a
guarded no-op — zero network calls and the page state (store included) is
returned unchanged. -/
theorem c6_iterate_noop_when_stopped (resp : IterateResponse) (now : String)
    (st : AppState) (h : st.isRunning = false) :
    handleIterate resp now st = (st, 0) := by
  simp [handleIterate, h]

/-- Witness for Claim C6 at the initial (stopped) page state. -/
theorem c6_iterate_noop_when_stopped_witness :
    initApp.isRunning = false ∧
    handleIterate ⟨none, some "move", none⟩ "t1" initApp = (initApp, 0) :=
  ⟨rfl, c6_iterate_noop_when_stopped ⟨none, some "move", none⟩ "t1" initApp rfl⟩

/-- Claim C7: on a successful `iterate` response while running, exactly one
network call is made; a present `game_state` is folded in wholesale via
`updateGameState` (absent leaves the snapshot alone); a named (truthy)
`action_taken` appends one log entry attributed to the Battle Agent exactly
when the action is "battle" and to the Planning Agent otherwise, with
`outcome || 'Action completed'` as details; a falsy `action_taken` leaves
the log alone; and the agent roster is untouched. -/
theorem c7_iterate_success (resp : IterateResponse) (now : String)
    (st : AppState) (h : st.isRunning = true) :
    (handleIterate resp now st).2 = 1 ∧
    (∀ gs, resp.game_state = some gs →
      (handleIterate resp now st).1.store.gameState = some gs) ∧
    (resp.game_state = none →
      (handleIterate resp now st).1.store.gameState = st.store.gameState) ∧
    (∀ a, resp.action_taken = some a → a ≠ "" →
      (handleIterate resp now st).1.store.logs =
        addLog st.store.logs
          ⟨if a = "battle" then "Battle Agent" else "Planning Agent",
           a, jsOrElse resp.outcome "Action completed"⟩ now) ∧
    (jsTruthy resp.action_taken = false →
      (handleIterate resp now st).1.store.logs = st.store.logs) ∧
    (handleIterate resp now st).1.store.agents = st.store.agents := by
  refine ⟨?_, ?_, ?_, ?_, ?_, ?_⟩
  · simp [handleIterate, h]
  · intro gs hgs
    simp [handleIterate, h, hgs, updateGameState]
    by_cases ha : jsTruthy resp.action_taken <;> simp [ha]
  · intro hgs
    simp [handleIterate, h, hgs]
    by_cases ha : jsTruthy resp.action_taken <;> simp [ha]
  · intro a ha hne
    simp [handleIterate, h, ha, jsTruthy, hne, updateGameState]
    cases hg : resp.game_state <;> simp [hg]
  · intro ha
    simp [handleIterate, h, ha]
    cases hg : resp.game_state <;> simp [hg, updateGameState]
  · simp [handleIterate, h]
    by_cases ha : jsTruthy resp.action_taken <;>
      cases hg : resp.game_state <;> simp [ha, hg, updateGameState]

/-- Witness for Claim C7: a response carrying a snapshot and a "battle"
action, applied to a running page with empty log, replaces the stored
snapshot and appends the Battle Agent entry with the default details. -/
theorem c7_iterate_success_witness :
    runningApp.isRunning = true ∧
    (handleIterate sampleIterResp "t2" runningApp).1.store.gameState =
      some sampleGS ∧
    (handleIterate sampleIterResp "t2" runningApp).1.store.logs =
      [⟨"Battle Agent", "battle", "Action completed", "t2"⟩] := by
  have h := c7_iterate_success sampleIterResp "t2" runningApp rfl
  refine ⟨rfl, h.2.1 sampleGS rfl, ?_⟩
  rw [h.2.2.2.1 "battle" rfl (by decide)]
  decide

/-- Claim C8: `updateAgentStatus` never inserts or removes an agent — the
roster keeps its cardinality and order, every entry keeps its name, role and
icon, each position is the old entry with at most its status replaced (so
non-matching entries are untouched), and when no agent matches the name the
roster is entirely unchanged. Being a total function, it never throws. -/
theorem c8_updateAgentStatus_frame (agents : List Agent) (agentName : String)
    (status : AgentStatus) :
    (updateAgentStatus agents agentName status).length = agents.length ∧
    (∀ i : Nat, (updateAgentStatus agents agentName status)[i]? =
      (agents[i]?).map fun a =>
        if a.name = agentName then { a with status := status } else a) ∧
    ((updateAgentStatus agents agentName status).map
        fun a => (a.name, a.role, a.icon)) =
      (agents.map fun a => (a.name, a.role, a.icon)) ∧
    ((∀ a ∈ agents, a.name ≠ agentName) →
      updateAgentStatus agents agentName status = agents) := by
  refine ⟨?_, ?_, ?_, ?_⟩
  · simp [updateAgentStatus]
  · intro i
    simp [updateAgentStatus]
  · simp only [updateAgentStatus, List.map_map]
    apply List.map_congr_left
    intro a _
    by_cases hn : a.name = agentName <;> simp [hn]
  · intro hnone
    have hid : ∀ a ∈ agents,
        (if a.name = agentName then { a with status := status } else a) = a := by
      intro a ha
      simp [hnone a ha]
    calc updateAgentStatus agents agentName status
        = agents.map id := List.map_congr_left fun a ha => by
          simpa using hid a ha
      _ = agents := List.map_id agents

/-- Witness for Claim C8: updating the status of "Unknown Agent" leaves the
default roster exactly as it was. -/
theorem c8_updateAgentStatus_frame_witness :
    (∀ a ∈ DEFAULT_AGENTS, a.name ≠ "Unknown Agent") ∧
    updateAgentStatus DEFAULT_AGENTS "Unknown Agent" .active = DEFAULT_AGENTS :=
  ⟨by decide,
   (c8_updateAgentStatus_frame DEFAULT_AGENTS "Unknown Agent" .active).2.2.2
     (by decide)⟩

/-- Claim C9: a snapshot whose party members come from the (spec-modelled)
backend producer is stored wholesale by `updateGameState` and its members
are read back unchanged; the HP-bar width `PartyStatus` renders is exactly
`round(current_hp / max_hp * 100)` and the fainted flag it renders is
exactly `current_hp == 0`. -/
theorem c9_hp_invariant (nickname : String) (level c m : Nat)
    (st : StoreState) (h : 0 < m) :
    (updateGameState st (mkSnapshot (mkBackendPokemon nickname level c m))).gameState
      = some (mkSnapshot (mkBackendPokemon nickname level c m)) ∧
    ((updateGameState st (mkSnapshot (mkBackendPokemon nickname level c m))).gameState.map
        fun g => g.party.pokemon) = some [mkBackendPokemon nickname level c m] ∧
    hpBarWidth (mkBackendPokemon nickname level c m) =
      round ((c * 100 : ℚ) / m) ∧
    (mkBackendPokemon nickname level c m).is_fainted = decide (c = 0) ∧
    faintedMark (mkBackendPokemon nickname level c m) =
      (if c = 0 then "💀" else "✓") := by
  refine ⟨rfl, rfl, rfl, ?_, ?_⟩
  · show (c == 0) = decide (c = 0)
    cases c <;> rfl
  · by_cases hc : c = 0 <;> simp [faintedMark, mkBackendPokemon, hc]

/-- Witness for Claim C9: HP 50/100 yields displayed percentage 50 and not
fainted; HP 0/100 yields fainted. -/
theorem c9_hp_invariant_witness :
    0 < 100 ∧
    hpBarWidth (mkBackendPokemon "PIKA" 12 50 100) = 50 ∧
    (mkBackendPokemon "PIKA" 12 50 100).is_fainted = false ∧
    (mkBackendPokemon "PIKA" 12 0 100).is_fainted = true ∧
    (updateGameState initStore (mkSnapshot (mkBackendPokemon "PIKA" 12 50 100))).gameState
      = some (mkSnapshot (mkBackendPokemon "PIKA" 12 50 100)) := by
  have h1 := c9_hp_invariant "PIKA" 12 50 100 initStore (by norm_num)
  have h2 := c9_hp_invariant "PIKA" 12 0 100 initStore (by norm_num)
  refine ⟨by norm_num, ?_, ?_, ?_, h1.1⟩
  · rw [h1.2.2.1]
    norm_num [round_eq]
  · rw [h1.2.2.2.1]
    decide
  · rw [h2.2.2.2.1]
    decide

/-- Claim C10: when the `stop` request completes with any status code (200
or not — `response.ok` is never inspected), the running flag is set false,
the System "stopped" entry is appended and the error slot is untouched;
when the request throws, only the error message is set — running flag and
store are unchanged. -/
theorem c10_stop_semantics (status : Nat) (e now : String) (st : AppState) :
    (handleStop (.ok ⟨status⟩) now st).isRunning = false ∧
    (handleStop (.ok ⟨status⟩) now st).store.logs =
      addLog st.store.logs ⟨"System", "stopped", "AI Pokemon player stopped"⟩ now ∧
    (handleStop (.ok ⟨status⟩) now st).error = st.error ∧
    (handleStop (.error e) now st).isRunning = st.isRunning ∧
    (handleStop (.error e) now st).error = some e ∧
    (handleStop (.error e) now st).store = st.store :=
  ⟨rfl, rfl, rfl, rfl, rfl, rfl⟩
